import Mathlib

/-!
Verification of the RaiseWithAI web-search microservice (`src/app.py`).

The service is a thin FastAPI endpoint around the Tavily search provider:
pydantic models `SearchRequest` / `SearchResult` / `SearchResponse`,
a `POST /search` handler `perform_search`, a `GET /quick-search` handler
`quick_search`, and a fail-fast `TAVILY_API_KEY` check at module load.

Shallow embedding conventions:
- A JSON field of a raw (pre-validation) request has three states —
  absent, explicit null, or a value — modelled by `RawField`.
- A key of the keyword-argument dictionary passed to the provider is
  modelled as `Option v`: `none` means the key is not in the dictionary.
  Values that can themselves be Python `None` are `Option (Option _)`.
- The provider (`tavily.search`) is an opaque function parameter that
  either returns a reply or raises, modelled as `Except String`.
- Python float `score` is only ever copied, never computed with, so it is
  modelled by `Rat` (an exact stand-in; no floating-point arithmetic occurs).
- `HTTPException(status_code, detail)` is `HTTPError.httpException`.
-/

/-- Three-state JSON field of a raw request body: the key may be absent,
explicitly `null`, or carry a value. -/
inductive RawField (α : Type) where
  | absent
  | null
  | val (a : α)
deriving DecidableEq

/-- Raw, pre-validation body of `POST /search` (typed JSON view). -/
structure RawSearchRequest where
  query : RawField String
  search_depth : RawField String := .absent
  max_results : RawField Int := .absent
  include_answer : RawField Bool := .absent
  include_raw_content : RawField Bool := .absent
  include_images : RawField Bool := .absent
  include_domains : RawField (List String) := .absent
  exclude_domains : RawField (List String) := .absent
deriving DecidableEq

/-- Validated pydantic model `SearchRequest` (src/app.py lines 33-41).
Every optional field is `Optional[...]` with the listed default, so after
validation it holds `Option` values; the defaults below are pydantic's. -/
structure SearchRequest where
  query : String
  search_depth : Option String := some "advanced"
  max_results : Option Int := some 8
  include_answer : Option Bool := some true
  include_raw_content : Option Bool := some false
  include_images : Option Bool := some false
  include_domains : Option (List String) := none
  exclude_domains : Option (List String) := none
deriving DecidableEq

/-- Pydantic validation failure, carrying the offending field. -/
inductive ValidationError where
  | missing (field : String)
  | invalidType (field : String)
deriving DecidableEq

/-- Resolution of an optional pydantic field: absent takes the default,
explicit null becomes `none`, a value is kept. -/
def RawField.resolve (f : RawField α) (dflt : Option α) : Option α :=
  match f with
  | .absent => dflt
  | .null => none
  | .val a => some a

/-- Pydantic validation of the request body against `SearchRequest`:
`query : str` must be present and a string (null is rejected, but any
string — including the empty one — passes, since the model declares no
length constraint); every other field is optional with its default. -/
def SearchRequest.validate (raw : RawSearchRequest) : Except ValidationError SearchRequest :=
  match raw.query with
  | .absent => .error (.missing "query")
  | .null => .error (.invalidType "query")
  | .val q =>
    .ok { query := q
        , search_depth := raw.search_depth.resolve (some "advanced")
        , max_results := raw.max_results.resolve (some 8)
        , include_answer := raw.include_answer.resolve (some true)
        , include_raw_content := raw.include_raw_content.resolve (some false)
        , include_images := raw.include_images.resolve (some false)
        , include_domains := raw.include_domains.resolve none
        , exclude_domains := raw.exclude_domains.resolve none }

/-- The keyword-argument dictionary handed to `tavily.search`.
`none` on a field means the key is absent from the dictionary; the five
scalar keys, when present, carry a possibly-`None` Python value. -/
structure ProviderParams where
  query : String
  search_depth : Option (Option String) := none
  max_results : Option (Option Int) := none
  include_answer : Option (Option Bool) := none
  include_raw_content : Option (Option Bool) := none
  include_images : Option (Option Bool) := none
  include_domains : Option (List String) := none
  exclude_domains : Option (List String) := none
deriving DecidableEq

/-- Python truthiness test `if request.include_domains:` on an
`Optional[List[str]]`: `None` and the empty list are falsy. -/
def pyTruthyList (l : Option (List String)) : Bool :=
  match l with
  | none => false
  | some xs => !xs.isEmpty

/-- Assembly of `search_params` in `perform_search` (src/app.py lines
64-75): the five scalar keys are always placed in the dictionary with the
request's value; `include_domains` / `exclude_domains` are added only when
truthy (non-`None` and non-empty). -/
def buildParams (request : SearchRequest) : ProviderParams :=
  { query := request.query
  , search_depth := some request.search_depth
  , max_results := some request.max_results
  , include_answer := some request.include_answer
  , include_raw_content := some request.include_raw_content
  , include_images := some request.include_images
  , include_domains :=
      if pyTruthyList request.include_domains then request.include_domains else none
  , exclude_domains :=
      if pyTruthyList request.exclude_domains then request.exclude_domains else none }

/-- One entry of the provider's `results` list, as a raw JSON object:
every key may be missing. `score` is an exact stand-in for the float. -/
structure RawResult where
  title : Option String := none
  url : Option String := none
  content : Option String := none
  score : Option Rat := none
  published_date : Option String := none
deriving DecidableEq

/-- The provider's reply object. `results = none` models a reply dictionary
without a `results` key (read via `response.get("results", [])`). -/
structure ProviderReply where
  answer : Option String := none
  results : Option (List RawResult) := none
deriving DecidableEq

/-- Validated pydantic model `SearchResult` (src/app.py lines 43-48). -/
structure SearchResult where
  title : String
  url : String
  content : String
  score : Rat
  published_date : Option String := none
deriving DecidableEq

/-- Validated pydantic model `SearchResponse` (src/app.py lines 50-53). -/
structure SearchResponse where
  query : String
  answer : Option String := none
  results : List SearchResult
deriving DecidableEq

/-- FastAPI `HTTPException(status_code=..., detail=...)`. -/
inductive HTTPError where
  | httpException (status_code : Nat) (detail : String)
deriving DecidableEq

/-- Status code of an `HTTPError`. -/
def HTTPError.status_code : HTTPError → Nat
  | .httpException s _ => s

/-- Detail text of an `HTTPError`. -/
def HTTPError.detail : HTTPError → String
  | .httpException _ d => d

/-- Python dictionary subscript `r[key]` on an optional field: a missing
key raises `KeyError`. -/
def getKey (v : Option α) (key : String) : Except String α :=
  match v with
  | some a => .ok a
  | none => .error ("KeyError: " ++ key)

/-- Construction of one `SearchResult` from a raw provider entry
(src/app.py lines 85-91): required keys are read with `r[...]` (raising on
a missing key, in source order), `published_date` with `r.get(...)`. -/
def mapResult (r : RawResult) : Except String SearchResult :=
  match getKey r.title "title" with
  | .error e => .error e
  | .ok t =>
    match getKey r.url "url" with
    | .error e => .error e
    | .ok u =>
      match getKey r.content "content" with
      | .error e => .error e
      | .ok c =>
        match getKey r.score "score" with
        | .error e => .error e
        | .ok s =>
          .ok { title := t, url := u, content := c, score := s
              , published_date := r.published_date }

/-- The list comprehension over `response.get("results", [])` (src/app.py
lines 84-93): entries are mapped in order and the first failing entry
aborts the whole construction. -/
def mapResults : List RawResult → Except String (List SearchResult)
  | [] => .ok []
  | r :: rs =>
    match mapResult r with
    | .error e => .error e
    | .ok s =>
      match mapResults rs with
      | .error e => .error e
      | .ok ss => .ok (s :: ss)

/-- The body of the `POST /search` handler `perform_search` (src/app.py
lines 62-102), after request validation. The provider is a parameter; the
`try/except Exception` wraps both the provider call and the result
parsing, converting any failure into `HTTPException(500,
"Tavily search error: " + str(e))`. -/
def perform_search (request : SearchRequest)
    (provider : ProviderParams → Except String ProviderReply) :
    Except HTTPError SearchResponse :=
  match provider (buildParams request) with
  | .error e => .error (.httpException 500 ("Tavily search error: " ++ e))
  | .ok response =>
    match mapResults (response.results.getD []) with
    | .error e => .error (.httpException 500 ("Tavily search error: " ++ e))
    | .ok structured =>
      .ok { query := request.query
          , answer := response.answer
          , results := structured }

/-- The `POST /search` service boundary: FastAPI validates the body
against `SearchRequest` and returns a 422 with field detail before the
handler runs; otherwise the handler runs and calls the provider. The
second component counts how many times the provider is invoked. -/
def handle_search (raw : RawSearchRequest)
    (provider : ProviderParams → Except String ProviderReply) :
    Except HTTPError SearchResponse × Nat :=
  match SearchRequest.validate raw with
  | .error ve =>
    (.error (.httpException 422
      (match ve with
       | .missing f => "field required: " ++ f
       | .invalidType f => "invalid type: " ++ f)), 0)
  | .ok request => (perform_search request provider, 1)

/-- Loose reply shape of `GET /quick-search` (src/app.py lines 109-113). -/
structure QuickReply where
  query : String
  answer : Option String := none
  results : Option (List RawResult) := none
deriving DecidableEq

/-- The `GET /quick-search` handler (src/app.py lines 105-115): the
provider is called with only the query (no other keyword arguments), the
raw reply fields are passed through unmapped, and any failure becomes
`HTTPException(500, "Quick search error: " + str(e))`. -/
def quick_search (query : String)
    (provider : ProviderParams → Except String ProviderReply) :
    Except HTTPError QuickReply :=
  match provider { query := query } with
  | .error e => .error (.httpException 500 ("Quick search error: " ++ e))
  | .ok response =>
    .ok { query := query
        , answer := response.answer
        , results := response.results }

/-- Module-load credential check (src/app.py lines 18-23):
`os.getenv("TAVILY_API_KEY")` is `None` or a string; `if not
TAVILY_API_KEY` treats `None` and the empty string as falsy and raises
`ValueError` before the app object exists. On success the key is what the
Tavily client is constructed with. -/
def startService (env_TAVILY_API_KEY : Option String) : Except String String :=
  match env_TAVILY_API_KEY with
  | none => .error "TAVILY_API_KEY not set in environment variables"
  | some k =>
    if k = "" then .error "TAVILY_API_KEY not set in environment variables"
    else .ok k

/-! ## Helper lemmas about the result mapping -/

/-- A successfully mapped result is a direct field copy of the raw entry,
with `published_date` passed through (absent stays absent). -/
theorem mapResult_ok_copy {r : RawResult} {s : SearchResult}
    (h : mapResult r = .ok s) :
    r.title = some s.title ∧ r.url = some s.url ∧ r.content = some s.content ∧
      r.score = some s.score ∧ s.published_date = r.published_date := by
  obtain ⟨t, u, c, sc, pd⟩ := r
  cases t <;> cases u <;> cases c <;> cases sc <;>
    simp [mapResult, getKey] at h
  simp [← h]

/-- A raw entry missing any of the four required keys never maps
successfully. -/
theorem mapResult_missing_key {r : RawResult}
    (h : r.title = none ∨ r.url = none ∨ r.content = none ∨ r.score = none) :
    ∀ s, mapResult r ≠ .ok s := by
  intro s hs
  have hc := mapResult_ok_copy hs
  rcases h with h | h | h | h <;> rw [h] at hc <;> simp at hc

/-- If the whole list maps successfully, then it maps pointwise, in
order, with nothing dropped. -/
theorem mapResults_ok_forall₂ {xs : List RawResult} {ys : List SearchResult}
    (h : mapResults xs = .ok ys) :
    List.Forall₂ (fun r s => mapResult r = .ok s) xs ys := by
  induction xs generalizing ys with
  | nil =>
    simp [mapResults] at h
    simp [← h]
  | cons r rs ih =>
    cases hr : mapResult r with
    | error e => simp [mapResults, hr] at h
    | ok s =>
      cases hrs : mapResults rs with
      | error e => simp [mapResults, hr, hrs] at h
      | ok ss =>
        simp [mapResults, hr, hrs] at h
        rw [← h]
        exact List.Forall₂.cons hr (ih hrs)

/-- A successful mapping preserves the length of the provider's list. -/
theorem mapResults_ok_length {xs : List RawResult} {ys : List SearchResult}
    (h : mapResults xs = .ok ys) : ys.length = xs.length :=
  (mapResults_ok_forall₂ h).length_eq.symm

/-- If a relation holds pointwise between two lists, every member of the
first list is related to some element of the second. -/
theorem forall₂_exists_of_mem {α β : Type} {R : α → β → Prop}
    {xs : List α} {ys : List β}
    (h : List.Forall₂ R xs ys) {a : α} (ha : a ∈ xs) : ∃ b, R a b := by
  induction h with
  | nil => cases ha
  | cons hr hrest ih =>
    cases ha with
    | head => exact ⟨_, hr⟩
    | tail _ hm => exact ih hm

/-! ## Claims -/

/-- Claim C1: for every validated request and provider reply, the search
handler either returns a response whose results list maps the provider's
entries in full (no truncation; each `SearchResult` structurally carries
all four required fields), or fails entirely with a 500 error. In
particular a provider entry missing a required field fails the whole
call; no truncated result list is ever returned. -/
theorem C1_all_or_nothing (request : SearchRequest)
    (provider : ProviderParams → Except String ProviderReply)
    (reply : ProviderReply)
    (hp : provider (buildParams request) = .ok reply) :
    (∀ resp, perform_search request provider = .ok resp →
        resp.results.length = (reply.results.getD []).length) ∧
    ((∃ r ∈ reply.results.getD [],
        r.title = none ∨ r.url = none ∨ r.content = none ∨ r.score = none) →
      ∃ d, perform_search request provider = .error (.httpException 500 d)) := by
  have hps : perform_search request provider =
      match mapResults (reply.results.getD []) with
      | .error e => .error (.httpException 500 ("Tavily search error: " ++ e))
      | .ok structured =>
        .ok { query := request.query, answer := reply.answer, results := structured } := by
    unfold perform_search
    rw [hp]
  cases hm : mapResults (reply.results.getD []) with
  | error e =>
    rw [hm] at hps
    exact ⟨fun resp hresp => absurd (hps ▸ hresp) (by simp), fun _ => ⟨_, hps⟩⟩
  | ok ys =>
    rw [hm] at hps
    constructor
    · intro resp hresp
      rw [hps] at hresp
      cases hresp
      exact mapResults_ok_length hm
    · rintro ⟨r, hmem, hmiss⟩
      exfalso
      obtain ⟨s, hs⟩ := forall₂_exists_of_mem (mapResults_ok_forall₂ hm) hmem
      exact mapResult_missing_key hmiss s hs

/-- Concrete run of C1_all_or_nothing: a provider entry without a score
makes the whole call fail with a 500. -/
theorem C1_all_or_nothing_witness :
    ∃ d, perform_search { query := "q" }
        (fun _ => .ok { results :=
          (some [{ title := some "t", url := some "u", content := some "c" }]) }) =
      .error (.httpException 500 d) :=
  (C1_all_or_nothing { query := "q" }
      (fun _ => .ok { results :=
        (some [{ title := some "t", url := some "u", content := some "c" }]) })
      { results := some [{ title := some "t", url := some "u", content := some "c" }] }
      rfl).2
    ⟨{ title := some "t", url := some "u", content := some "c" }, by simp, by simp⟩

/-- Claim C2 fails on the code: for a request where every optional scalar
field is left at its default, the provider call still carries all five
scalar keys (with their default values). The conditional "only when
non-default" applies solely to the two domain lists. -/
theorem C2_default_params_sent :
    ({ query := "q" } : SearchRequest).search_depth = some "advanced" ∧
    ({ query := "q" } : SearchRequest).max_results = some 8 ∧
    (buildParams { query := "q" }).search_depth = some (some "advanced") ∧
    (buildParams { query := "q" }).max_results = some (some 8) ∧
    (buildParams { query := "q" }).include_answer = some (some true) ∧
    (buildParams { query := "q" }).include_raw_content = some (some false) ∧
    (buildParams { query := "q" }).include_images = some (some false) :=
  ⟨rfl, rfl, rfl, rfl, rfl, rfl, rfl⟩

/-- Claim C2 (amended): the provider call carries the query and always
carries the five scalar keys (search_depth, max_results, include_answer,
include_raw_content, include_images) with the request's values, defaults
included; only include_domains and exclude_domains are conditional,
present exactly when the request supplies a non-empty list. -/
theorem C2_params_presence (request : SearchRequest) :
    (buildParams request).query = request.query ∧
    (buildParams request).search_depth = some request.search_depth ∧
    (buildParams request).max_results = some request.max_results ∧
    (buildParams request).include_answer = some request.include_answer ∧
    (buildParams request).include_raw_content = some request.include_raw_content ∧
    (buildParams request).include_images = some request.include_images ∧
    ((buildParams request).include_domains ≠ none ↔
      ∃ l, request.include_domains = some l ∧ l ≠ []) ∧
    ((buildParams request).exclude_domains ≠ none ↔
      ∃ l, request.exclude_domains = some l ∧ l ≠ []) := by
  have hdom : ∀ (o : Option (List String)),
      ((if pyTruthyList o then o else none) ≠ none ↔ ∃ l, o = some l ∧ l ≠ []) := by
    intro o
    cases o with
    | none => simp [pyTruthyList]
    | some l => cases l <;> simp [pyTruthyList]
  exact ⟨rfl, rfl, rfl, rfl, rfl, rfl, hdom request.include_domains,
    hdom request.exclude_domains⟩

/-- Claim C3 divergence: a missing query is rejected with a 422 and the
provider is never invoked (that half of the claim holds), but an empty
query string passes validation — the pydantic model declares `query : str`
with no length constraint — and the provider IS invoked. The repository's
own test expects status 422 for the body with an empty query string. -/
theorem C3_empty_query_accepted :
    handle_search { query := .absent } (fun _ => .ok {}) =
      (.error (.httpException 422 "field required: query"), 0) ∧
    SearchRequest.validate { query := .val "" } = .ok { query := "" } ∧
    (handle_search { query := .val "" } (fun _ => .ok {})).2 = 1 :=
  ⟨rfl, rfl, rfl⟩

/-- Claim C4: when both domain filters are absent from the validated
request, neither key appears in the provider call. -/
theorem C4_absent_domains_not_sent (request : SearchRequest)
    (hi : request.include_domains = none)
    (he : request.exclude_domains = none) :
    (buildParams request).include_domains = none ∧
    (buildParams request).exclude_domains = none := by
  simp [buildParams, pyTruthyList, hi, he]

/-- Concrete run of C4_absent_domains_not_sent on a default request. -/
theorem C4_absent_domains_not_sent_witness :
    (buildParams { query := "q" }).include_domains = none ∧
    (buildParams { query := "q" }).exclude_domains = none :=
  C4_absent_domains_not_sent { query := "q" } rfl rfl

/-- Claim C5: when the provider raises, both handlers return an
HTTPException with status 500 whose detail embeds the failure text (as a
prefix-extended copy), no provider exception escapes, and on the search
route the provider is invoked exactly once (no retry). -/
theorem C5_upstream_failure_translated (request : SearchRequest)
    (q e : String)
    (provider : ProviderParams → Except String ProviderReply)
    (hp : ∀ p, provider p = .error e) :
    (∃ pre, perform_search request provider =
        .error (.httpException 500 (pre ++ e))) ∧
    (∃ pre, quick_search q provider =
        .error (.httpException 500 (pre ++ e))) ∧
    (∀ raw, SearchRequest.validate raw = .ok request →
        (handle_search raw provider).2 = 1) := by
  refine ⟨⟨"Tavily search error: ", ?_⟩, ⟨"Quick search error: ", ?_⟩, ?_⟩
  · unfold perform_search
    rw [hp]
  · unfold quick_search
    rw [hp]
  · intro raw hv
    unfold handle_search
    rw [hv]

/-- Concrete run of C5_upstream_failure_translated with the failure text
used by the repository's tests. -/
theorem C5_upstream_failure_translated_witness :
    ∃ pre, perform_search { query := "q" }
        (fun _ => .error "Tavily API is down") =
      .error (.httpException 500 (pre ++ "Tavily API is down")) :=
  (C5_upstream_failure_translated { query := "q" } "q" "Tavily API is down"
    (fun _ => .error "Tavily API is down") (fun _ => rfl)).1

/-- Claim C6: with TAVILY_API_KEY absent from the environment, module
initialization raises ValueError before the app object exists, so the
service never starts serving requests. -/
theorem C6_missing_key_fail_fast :
    startService none = .error "TAVILY_API_KEY not set in environment variables" :=
  rfl

/-- Claim C7: on a successful provider reply, the handler returns a
response echoing the request's query, copying the reply's answer (absent
stays absent), and mapping the provider's entries pointwise in order by
direct field copy, with published_date absent when the provider omitted
it. -/
theorem C7_success_shape (request : SearchRequest)
    (provider : ProviderParams → Except String ProviderReply)
    (reply : ProviderReply) (rs : List SearchResult)
    (hp : provider (buildParams request) = .ok reply)
    (hm : mapResults (reply.results.getD []) = .ok rs) :
    perform_search request provider =
      .ok { query := request.query, answer := reply.answer, results := rs } ∧
    List.Forall₂ (fun r s =>
        r.title = some s.title ∧ r.url = some s.url ∧
        r.content = some s.content ∧ r.score = some s.score ∧
        s.published_date = r.published_date)
      (reply.results.getD []) rs := by
  constructor
  · unfold perform_search
    simp only [hp, hm]
  · exact List.Forall₂.imp (fun r s hr => mapResult_ok_copy hr)
      (mapResults_ok_forall₂ hm)

/-- Concrete run of C7_success_shape on the scenario from the spec: one
mocked result is mapped field-for-field. -/
theorem C7_success_shape_witness :
    perform_search
      { query := "latest robotics 2025", search_depth := some "advanced"
      , max_results := some 5 }
      (fun _ => .ok { answer := some "Mock answer"
                    , results := (some [{ title := some "Test"
                                        , url := some "http://test.com"
                                        , content := some "..."
                                        , score := some (9/10) }]) }) =
      .ok { query := "latest robotics 2025", answer := some "Mock answer"
          , results := [{ title := "Test", url := "http://test.com"
                        , content := "...", score := 9/10 }] } :=
  (C7_success_shape
    { query := "latest robotics 2025", search_depth := some "advanced"
    , max_results := some 5 }
    (fun _ => .ok { answer := some "Mock answer"
                  , results := (some [{ title := some "Test"
                                      , url := some "http://test.com"
                                      , content := some "..."
                                      , score := some (9/10) }]) })
    { answer := some "Mock answer"
    , results := some [{ title := some "Test", url := some "http://test.com"
                       , content := some "...", score := some (9/10) }] }
    [{ title := "Test", url := "http://test.com", content := "..."
     , score := 9/10 }]
    rfl rfl).1

/-- Claim C8: a provider reply with an empty result list produces a
successful response with an empty results list, not an error. -/
theorem C8_empty_results_success (request : SearchRequest)
    (provider : ProviderParams → Except String ProviderReply)
    (reply : ProviderReply)
    (hp : provider (buildParams request) = .ok reply)
    (he : reply.results = some []) :
    perform_search request provider =
      .ok { query := request.query, answer := reply.answer, results := [] } := by
  unfold perform_search
  simp [hp, he, mapResults]

/-- Concrete run of C8_empty_results_success. -/
theorem C8_empty_results_success_witness :
    perform_search { query := "q" }
      (fun _ => .ok { answer := some "a", results := (some []) }) =
      .ok { query := "q", answer := some "a", results := [] } :=
  C8_empty_results_success { query := "q" }
    (fun _ => .ok { answer := some "a", results := (some []) })
    { answer := some "a", results := some [] } rfl rfl

/-- Claim C9 fails on the code: the pydantic model gives max_results no
positivity constraint, so a supplied value of -1 still yields a validated
request carrying -1. -/
theorem C9_nonpositive_accepted :
    SearchRequest.validate { query := .val "q", max_results := .val (-1) } =
      .ok { query := "q", max_results := some (-1) } :=
  rfl

/-- Claim C9 (amended): max_results defaults to 8 when not supplied, and
any supplied integer — positive or not — is kept as given; no positivity
check is performed. -/
theorem C9_max_results_default (raw : RawSearchRequest) (q : String)
    (hq : raw.query = .val q) :
    (raw.max_results = .absent →
      ∃ req, SearchRequest.validate raw = .ok req ∧ req.max_results = some 8) ∧
    (∀ n : Int, raw.max_results = .val n →
      ∃ req, SearchRequest.validate raw = .ok req ∧ req.max_results = some n) := by
  have hv : SearchRequest.validate raw = .ok
      { query := q
      , search_depth := raw.search_depth.resolve (some "advanced")
      , max_results := raw.max_results.resolve (some 8)
      , include_answer := raw.include_answer.resolve (some true)
      , include_raw_content := raw.include_raw_content.resolve (some false)
      , include_images := raw.include_images.resolve (some false)
      , include_domains := raw.include_domains.resolve none
      , exclude_domains := raw.exclude_domains.resolve none } := by
    unfold SearchRequest.validate
    rw [hq]
  constructor
  · intro hm
    exact ⟨_, hv, by simp [hm, RawField.resolve]⟩
  · intro n hm
    exact ⟨_, hv, by simp [hm, RawField.resolve]⟩

/-- Concrete run of C9_max_results_default: the default is 8. -/
theorem C9_max_results_default_witness :
    ∃ req, SearchRequest.validate { query := .val "q" } = .ok req ∧
      req.max_results = some 8 :=
  (C9_max_results_default { query := .val "q" } "q" rfl).1 rfl

/-- Claim C10: a domain filter supplied as an explicitly empty list is
omitted from the provider call exactly as if that one field were absent,
independently for each of the two fields and regardless of what the other
field holds — the Python truthiness test is on non-emptiness of the value,
not on whether the field was supplied. -/
theorem C10_empty_list_as_absent (request : SearchRequest) :
    (request.include_domains = some [] →
      buildParams request =
        buildParams { request with include_domains := none }) ∧
    (request.exclude_domains = some [] →
      buildParams request =
        buildParams { request with exclude_domains := none }) := by
  constructor
  · intro hi
    simp [buildParams, pyTruthyList, hi]
  · intro he
    simp [buildParams, pyTruthyList, he]

/-- Concrete run of C10_empty_list_as_absent with only include_domains
empty while exclude_domains carries a non-empty filter. -/
theorem C10_empty_list_as_absent_witness :
    buildParams { query := "q", include_domains := some []
                , exclude_domains := some ["example.com"] } =
      buildParams { query := "q", include_domains := none
                  , exclude_domains := some ["example.com"] } :=
  (C10_empty_list_as_absent
    { query := "q", include_domains := some []
    , exclude_domains := some ["example.com"] }).1 rfl
